import Mathlib

/-!
Verification of the jewelry image/video generation backend.

This file gives a shallow embedding of the relevant parts of the source:

* the `VideoGenerationManager` class of `api/chat.js` (request queue with
  rate limiting, a sliding quota window and retry with backoff);
* the image fallback chains of the chat handlers (Vertex → Stable
  Diffusion in `api/chat.js`, DALL-E 3 → DALL-E 2 in an earlier revision);
* the chat handler's generation decision, prompt extraction, reply
  cleaning and response assembly;
* the artifact filename construction;
* the CRM counter update (`calculateCumulativeData`, both the fixed and
  the legacy revision).

Time is modelled by an explicit millisecond clock: every `Date.now()`
call reads the clock, every `setTimeout` sleep advances it and every
provider call advances it by a scripted duration.  Provider outcomes are
scripted inputs (`Except` values), so every definition is executable.
-/

namespace JewelryGen

/-- Substring occurrence on character lists. -/
def listContains (pat : List Char) : List Char → Bool
  | [] => pat.isEmpty
  | c :: cs => pat.isPrefixOf (c :: cs) || listContains pat cs

/-- JS `String.prototype.includes`: substring test, modelled on the
character lists of the strings. -/
def strIncludes (s pat : String) : Bool :=
  listContains pat.data s.data

/-- JS `String.prototype.trim`: strip leading and trailing whitespace
(modelled on character lists so that it evaluates by `decide`). -/
def strTrim (s : String) : String :=
  String.mk
    (((s.data.dropWhile Char.isWhitespace).reverse.dropWhile Char.isWhitespace).reverse)

/-- JS `String.prototype.toLowerCase` (ASCII, as used by the lexicon
checks). -/
def strToLower (s : String) : String :=
  String.mk (s.data.map Char.toLower)

/-- Split off the first occurrence of `sep`: the part before it and the
part after it. -/
def splitFirst (sep : List Char) : List Char → Option (List Char × List Char)
  | [] => none
  | c :: cs =>
    if sep.isPrefixOf (c :: cs) then some ([], (c :: cs).drop sep.length)
    else
      match splitFirst sep cs with
      | some pr => some (c :: pr.1, pr.2)
      | none => none

/-! ### VideoGenerationManager (api/chat.js, lines 311–527)

The manager owns a FIFO queue and process-wide rate-limit state.  The
drain loop `processQueue` handles one entry at a time; the dispatch
itself (`generateVideoWithRetry`) is treated here as an opaque call with
a scripted duration and result, and is modelled in detail further below
for the retry/backoff claims. -/

/-- The mutable rate-limit state of `VideoGenerationManager`:
`lastRequestTime`, `requestCount` and `windowStart` (constructor lines
315–320). -/
structure VGMState where
  lastRequestTime : Nat
  requestCount : Nat
  windowStart : Nat
deriving Repr, DecidableEq

/-- State of a fresh `VideoGenerationManager`: `lastRequestTime = 0`,
`requestCount = 0`, `windowStart = Date.now()` at construction time. -/
def initialState (constructTime : Nat) : VGMState :=
  { lastRequestTime := 0, requestCount := 0, windowStart := constructTime }

/-- One queued request: its enqueue time (`timestamp` pushed in
`generateVideo`) plus the scripted behaviour of the dispatch call
(`generateVideoWithRetry`): how long it takes and whether it resolves
with a video or throws with an error message. -/
structure QueueEntry where
  timestamp : Nat
  callDuration : Nat
  callResult : Except String String
deriving Repr

/-- Resolution of a queue entry's promise. -/
inductive QueueOutcome where
  | resolved (video : String)
  | rejected (msg : String)
deriving Repr, DecidableEq

/-- Trace of processing a single dequeued entry. -/
structure StepResult where
  clock : Nat
  state : VGMState
  outcome : QueueOutcome
  /-- `Date.now()` values at which `generateVideoWithRetry` was invoked. -/
  dispatchStarts : List Nat
  /-- values written to `lastRequestTime`, i.e. the dispatch timestamps
  recorded by the queue (only successful dispatches are recorded). -/
  recorded : List Nat
  /-- the values taken by `requestCount` while handling this entry. -/
  counters : List Nat
  /-- durations of the `setTimeout` sleeps performed for this entry. -/
  sleeps : List Nat
deriving Repr, DecidableEq

/-- Minimum inter-request spacing (lines 346–353): if less than 600 ms
elapsed since `lastRequestTime`, sleep the remainder.  Returns the new
clock and the sleeps performed. -/
def rateLimitWait (now : Nat) (s : VGMState) : Nat × List Nat :=
  let timeSinceLastRequest := now - s.lastRequestTime
  if timeSinceLastRequest < 600 then
    let waitTime := 600 - timeSinceLastRequest
    (now + waitTime, [waitTime])
  else (now, [])

/-- The window-reset side effect of `checkQuotaAvailability` (lines
381–391): reset the counter if the window has passed. -/
def checkQuotaWindowReset (now : Nat) (s : VGMState) : VGMState :=
  if now - s.windowStart > 60000 then
    { s with requestCount := 0, windowStart := now }
  else s

/-- The quota check in `processQueue` (lines 355–361):
`checkQuotaAvailability`, and when the quota is exhausted a sleep of
`60000 - (now - windowStart)` followed by `resetQuotaWindow` (which
stamps `windowStart` with the post-sleep `Date.now()`).  Returns the new
clock, state and sleeps. -/
def quotaWait (now : Nat) (s : VGMState) : Nat × VGMState × List Nat :=
  let s1 := checkQuotaWindowReset now s
  if s1.requestCount < 100 then (now, s1, [])
  else
    let resetTime := 60000 - (now - s1.windowStart)
    (now + resetTime,
      { s1 with requestCount := 0, windowStart := now + resetTime },
      [resetTime])

/-- Processing of one dequeued entry in `processQueue` (lines 336–374):
staleness check, inter-request spacing, quota check, dispatch, and on
success the `lastRequestTime` stamp, counter increment and 100 ms
cool-down.  On a dispatch error the promise is rejected and no rate-limit
bookkeeping happens. -/
def processEntry (now : Nat) (s : VGMState) (e : QueueEntry) : StepResult :=
  if now - e.timestamp > 300000 then
    { clock := now, state := s,
      outcome := .rejected ("Request timed out in queue"),
      dispatchStarts := [], recorded := [], counters := [], sleeps := [] }
  else
    let w := rateLimitWait now s
    let q := quotaWait w.1 s
    let start := q.1
    let s2 := q.2.1
    let finish := start + e.callDuration
    match e.callResult with
    | .ok v =>
        { clock := finish + 100,
          state := { s2 with lastRequestTime := finish,
                             requestCount := s2.requestCount + 1 },
          outcome := .resolved v,
          dispatchStarts := [start], recorded := [finish],
          counters := [s.requestCount, s2.requestCount, s2.requestCount + 1],
          sleeps := w.2 ++ q.2.2 ++ [100] }
    | .error msg =>
        { clock := finish, state := s2, outcome := .rejected msg,
          dispatchStarts := [start], recorded := [],
          counters := [s.requestCount, s2.requestCount],
          sleeps := w.2 ++ q.2.2 }

/-- Accumulated trace of a whole drain loop run. -/
structure DrainResult where
  clock : Nat
  state : VGMState
  outcomes : List QueueOutcome
  dispatchStarts : List Nat
  recorded : List Nat
  counters : List Nat
  sleeps : List Nat
  /-- manager state after each processed entry. -/
  states : List VGMState
deriving Repr, DecidableEq

/-- The `while (this.requestQueue.length > 0)` drain loop of
`processQueue`, processing entries FIFO. -/
def drainLoop (now : Nat) (s : VGMState) : List QueueEntry → DrainResult
  | [] =>
      { clock := now, state := s, outcomes := [], dispatchStarts := [],
        recorded := [], counters := [], sleeps := [], states := [] }
  | e :: rest =>
      let r := processEntry now s e
      let d := drainLoop r.clock r.state rest
      { clock := d.clock, state := d.state,
        outcomes := r.outcome :: d.outcomes,
        dispatchStarts := r.dispatchStarts ++ d.dispatchStarts,
        recorded := r.recorded ++ d.recorded,
        counters := r.counters ++ d.counters,
        sleeps := r.sleeps ++ d.sleeps,
        states := r.state :: d.states }

example :
    (processEntry 1000 (initialState 0)
      { timestamp := 900, callDuration := 5, callResult := .ok ("v") }).recorded
    = [1005] := by decide

example :
    (processEntry 1000000 (initialState 0)
      { timestamp := 0, callDuration := 5, callResult := .ok ("v") }).outcome
    = .rejected ("Request timed out in queue") := by decide

/-! ### Quota-window invariant (claim C1) -/

/-- Recorded dispatch timestamps keep at least 600 ms spacing, anchored
at a previous timestamp `prev`. -/
def sep600 : Nat → List Nat → Prop
  | _, [] => True
  | prev, t :: ts => prev + 600 ≤ t ∧ sep600 t ts

theorem rateLimitWait_bounds (now : Nat) (s : VGMState)
    (h : s.lastRequestTime ≤ now) :
    now ≤ (rateLimitWait now s).1
    ∧ s.lastRequestTime + 600 ≤ (rateLimitWait now s).1 := by
  simp only [rateLimitWait]
  split <;> constructor <;> omega

theorem quotaWait_props (now : Nat) (s : VGMState) (hw : s.windowStart ≤ now) :
    now ≤ (quotaWait now s).1
    ∧ (quotaWait now s).2.1.windowStart ≤ (quotaWait now s).1
    ∧ (quotaWait now s).2.1.lastRequestTime = s.lastRequestTime
    ∧ (quotaWait now s).2.1.requestCount < 100
    ∧ ((quotaWait now s).2.1.requestCount = s.requestCount
        ∨ (quotaWait now s).2.1.requestCount = 0) := by
  simp only [quotaWait, checkQuotaWindowReset]
  split <;> split <;> simp_all <;> omega

theorem processEntry_step (now : Nat) (s : VGMState) (e : QueueEntry)
    (hl : s.lastRequestTime ≤ now) (hw : s.windowStart ≤ now)
    (hc : s.requestCount ≤ 100) :
    (processEntry now s e).state.lastRequestTime ≤ (processEntry now s e).clock
    ∧ (processEntry now s e).state.windowStart ≤ (processEntry now s e).clock
    ∧ (processEntry now s e).state.requestCount ≤ 100
    ∧ (∀ c ∈ (processEntry now s e).counters, c ≤ 100)
    ∧ ((processEntry now s e).recorded = []
          ∧ (processEntry now s e).state.lastRequestTime = s.lastRequestTime
        ∨ (processEntry now s e).recorded
            = [(processEntry now s e).state.lastRequestTime]
          ∧ s.lastRequestTime + 600 ≤ (processEntry now s e).state.lastRequestTime) := by
  have hrl := rateLimitWait_bounds now s hl
  have hqw := quotaWait_props (rateLimitWait now s).1 s (le_trans hw hrl.1)
  simp only [processEntry]
  split
  · simp_all
  · cases hres : e.callResult <;> simp_all <;> omega

theorem drainLoop_inv (q : List QueueEntry) : ∀ (now : Nat) (s : VGMState),
    s.lastRequestTime ≤ now → s.windowStart ≤ now → s.requestCount ≤ 100 →
    (∀ c ∈ (drainLoop now s q).counters, c ≤ 100)
    ∧ sep600 s.lastRequestTime (drainLoop now s q).recorded := by
  induction q with
  | nil => intro now s _ _ _; simp [drainLoop, sep600]
  | cons e rest ih =>
    intro now s h1 h2 h3
    obtain ⟨s1, s2, s3, s4, s5⟩ := processEntry_step now s e h1 h2 h3
    obtain ⟨t1, t2⟩ :=
      ih (processEntry now s e).clock (processEntry now s e).state s1 s2 s3
    constructor
    · intro c hc
      simp only [drainLoop, List.mem_append] at hc
      rcases hc with hc | hc
      · exact s4 c hc
      · exact t1 c hc
    · simp only [drainLoop]
      rcases s5 with ⟨hrec, hlast⟩ | ⟨hrec, hlast⟩
      · rw [hrec]; simpa [hlast] using t2
      · rw [hrec]
        exact ⟨hlast, t2⟩

theorem sep600_getD_succ : ∀ (l : List Nat) (p i : Nat), sep600 p l →
    i + 1 < l.length → l.getD i 0 + 600 ≤ l.getD (i + 1) 0 := by
  intro l
  induction l with
  | nil => intro p i _ hi; simp at hi
  | cons t ts ih =>
    intro p i h hi
    obtain ⟨h1, h2⟩ := h
    cases i with
    | zero =>
      cases ts with
      | nil => simp at hi
      | cons u us => simpa using h2.1
    | succ j => simpa using ih t j h2 (by simpa using hi)

theorem sep600_getD_add (l : List Nat) (p : Nat) (h : sep600 p l) :
    ∀ (k i : Nat), i + k < l.length → l.getD i 0 + 600 * k ≤ l.getD (i + k) 0 := by
  intro k
  induction k with
  | zero => intro i _; simp
  | succ m ih =>
    intro i hi
    have hstep := sep600_getD_succ l p (i + m) h (by omega)
    have hind := ih i (by omega)
    have he : i + (m + 1) = (i + m) + 1 := by omega
    rw [he]
    omega

theorem hundred_apart_of_sep600 (l : List Nat) (p : Nat) (h : sep600 p l) :
    ((l.zip (l.drop 100)).all fun pr => decide (pr.1 + 60000 ≤ pr.2)) = true := by
  rw [List.all_eq_true]
  intro pr hpr
  rw [List.mem_iff_getElem] at hpr
  obtain ⟨i, hi, hget⟩ := hpr
  have hlen : i + 100 < l.length := by
    have hmin : (l.zip (l.drop 100)).length = min l.length (l.length - 100) := by
      simp [List.length_zip, List.length_drop]
    omega
  have hi1 : i < l.length := by omega
  have hlen2 : 100 + i < l.length := by omega
  have hsep := sep600_getD_add l p h 100 i hlen
  rw [← hget]
  simp only [List.getElem_zip, List.getElem_drop, decide_eq_true_eq]
  have e1 : l.getD i 0 = l[i] := List.getD_eq_getElem l 0 hi1
  have e2 : l.getD (i + 100) 0 = l[i + 100] := List.getD_eq_getElem l 0 hlen
  have e3 : l[100 + i] = l[i + 100] := by
    congr 1
    omega
  rw [e3]
  rw [e1, e2] at hsep
  omega

/-- C1: quota-window invariant of the video generation queue.  Starting
from a fresh `VideoGenerationManager`, over any queue of entries and any
scripted dispatch outcomes: (a) the per-minute request counter
`requestCount` never exceeds the 100-requests-per-60000-ms ceiling at any
point of the drain loop's execution, and (b) the dispatch timestamps
recorded by the queue never show more than 100 dispatches spanning less
than one 60000 ms window (any 101 consecutive recorded timestamps span at
least 60000 ms). -/
theorem quota_window_invariant (constructTime dt : Nat) (q : List QueueEntry) :
    (((drainLoop (constructTime + dt) (initialState constructTime) q).counters).all
        fun c => decide (c ≤ 100)) = true
    ∧ (((drainLoop (constructTime + dt) (initialState constructTime) q).recorded.zip
        ((drainLoop (constructTime + dt) (initialState constructTime) q).recorded.drop 100)).all
        fun pr => decide (pr.1 + 60000 ≤ pr.2)) = true := by
  have h := drainLoop_inv q (constructTime + dt) (initialState constructTime)
    (by simp [initialState]) (by simp [initialState]) (by simp [initialState])
  constructor
  · rw [List.all_eq_true]
    intro c hc
    exact decide_eq_true (h.1 c hc)
  · exact hundred_apart_of_sep600 _ _ h.2

/-- Helper: the staleness branch of `processEntry`. -/
theorem processEntry_stale_eq (now : Nat) (s : VGMState) (e : QueueEntry)
    (h : now - e.timestamp > 300000) :
    processEntry now s e =
      { clock := now, state := s,
        outcome := .rejected ("Request timed out in queue"),
        dispatchStarts := [], recorded := [], counters := [], sleeps := [] } := by
  simp [processEntry, h]

/-- C5: a dequeued entry older than the 5-minute staleness bound is
rejected with the queue-timeout error, and no dispatch to the provider
occurs for it (and no rate-limit bookkeeping or sleeping either). -/
theorem stale_entry_rejected (now : Nat) (s : VGMState) (e : QueueEntry)
    (h : now - e.timestamp > 300000) :
    processEntry now s e =
      { clock := now, state := s,
        outcome := .rejected ("Request timed out in queue"),
        dispatchStarts := [], recorded := [], counters := [], sleeps := [] } :=
  processEntry_stale_eq now s e h

/-- Witness for C5 at a concrete stale entry. -/
theorem stale_entry_rejected_witness :
    processEntry 400000 (initialState 0)
      { timestamp := 0, callDuration := 7, callResult := .ok ("v") } =
      { clock := 400000, state := initialState 0,
        outcome := .rejected ("Request timed out in queue"),
        dispatchStarts := [], recorded := [], counters := [], sleeps := [] } :=
  stale_entry_rejected 400000 (initialState 0)
    { timestamp := 0, callDuration := 7, callResult := .ok ("v") } (by decide)

/-- C10: rejecting a stale entry leaves the shared rate-limit state
untouched (`lastRequestTime`, `requestCount`, `windowStart` unchanged),
performs no sleep, records no dispatch, and the drain loop proceeds
directly to the rest of the queue at the same clock and state. -/
theorem stale_entry_frame (now : Nat) (s : VGMState) (e : QueueEntry)
    (rest : List QueueEntry) (h : now - e.timestamp > 300000) :
    drainLoop now s (e :: rest) =
      { drainLoop now s rest with
        outcomes := .rejected ("Request timed out in queue")
          :: (drainLoop now s rest).outcomes,
        states := s :: (drainLoop now s rest).states } := by
  simp [drainLoop, processEntry_stale_eq now s e h]

/-- Witness for C10 at a concrete stale entry. -/
theorem stale_entry_frame_witness :
    drainLoop 400000 (initialState 0)
      [{ timestamp := 0, callDuration := 7, callResult := .ok ("v") }] =
      { drainLoop 400000 (initialState 0) [] with
        outcomes := [.rejected ("Request timed out in queue")],
        states := [initialState 0] } := by
  have h := stale_entry_frame 400000 (initialState 0)
    { timestamp := 0, callDuration := 7, callResult := .ok ("v") } [] (by decide)
  simpa using h

/-! ### generateVideoWithRetry (api/chat.js, lines 404–434)

The retry helper makes up to `maxRetries = 3` attempts; each attempt is
a call of `generateSingleVideo`, scripted here as `call attempt`.  (The
model-variant chain inside `generateSingleVideo` is internal to one
attempt and not part of the retry policy.) -/

/-- The quota-error test of line 412: `error.message &&
(error.message.includes('429') ||
error.message.includes('Quota exceeded'))`. -/
def isQuotaError (msg : String) : Bool :=
  (msg != "") && (strIncludes msg ("429") || strIncludes msg ("Quota exceeded"))

/-- The quota-specific error thrown after exhausting all retries on
quota errors (line 422). -/
def quotaExhaustedMsg : String :=
  "Video generation quota exceeded despite rate limiting. Please try again later or contact support."

/-- Events produced while running the retry loop, in order: provider
attempts and backoff sleeps. -/
inductive RetryEvent where
  | attempt (i : Nat)
  | sleep (ms : Nat)
deriving Repr, DecidableEq

/-- Whether an event is a provider attempt. -/
def RetryEvent.isAttempt : RetryEvent → Bool
  | .attempt _ => true
  | .sleep _ => false

/-- The `for (let attempt = 0; attempt < this.maxRetries; attempt++)`
loop of `generateVideoWithRetry`.  `remaining + 1` is the number of loop
iterations still allowed (`maxRetries - attempt`), so `remaining > 0`
is the code's `attempt < this.maxRetries - 1` and `remaining == 0` is
`attempt === this.maxRetries - 1`.  The fuel-0 case is unreachable from
the entry point. -/
def retryGo (call : Nat → Except String String) :
    Nat → Nat → Except String String × List RetryEvent
  | 0, _ => (.error (""), [])
  | remaining + 1, attempt =>
    match call attempt with
    | .ok v => (.ok v, [.attempt attempt])
    | .error msg =>
      if isQuotaError msg then
        if remaining > 0 then
          let r := retryGo call remaining (attempt + 1)
          (r.1, .attempt attempt :: .sleep (2 ^ attempt * 10000) :: r.2)
        else (.error quotaExhaustedMsg, [.attempt attempt])
      else if remaining == 0 then (.error msg, [.attempt attempt])
      else
        let r := retryGo call remaining (attempt + 1)
        (r.1, .attempt attempt :: .sleep 2000 :: r.2)

/-- `generateVideoWithRetry` with `this.maxRetries = 3`. -/
def generateVideoWithRetry (call : Nat → Except String String) :
    Except String String × List RetryEvent :=
  retryGo call 3 0

/-- Full unfolding of the three-attempt retry loop, used to settle the
retry-policy claim. -/
theorem generateVideoWithRetry_eq (call : Nat → Except String String) :
    generateVideoWithRetry call =
      match call 0 with
      | .ok v => (.ok v, [.attempt 0])
      | .error m0 =>
        let d0 : RetryEvent := if isQuotaError m0 then .sleep 10000 else .sleep 2000
        match call 1 with
        | .ok v => (.ok v, [.attempt 0, d0, .attempt 1])
        | .error m1 =>
          let d1 : RetryEvent := if isQuotaError m1 then .sleep 20000 else .sleep 2000
          match call 2 with
          | .ok v => (.ok v, [.attempt 0, d0, .attempt 1, d1, .attempt 2])
          | .error m2 =>
            (if isQuotaError m2 then .error quotaExhaustedMsg else .error m2,
              [.attempt 0, d0, .attempt 1, d1, .attempt 2]) := by
  unfold generateVideoWithRetry
  cases h0 : call 0 with
  | error m0 =>
    cases h1 : call 1 with
    | error m1 =>
      cases h2 : call 2 with
      | error m2 =>
        cases hq0 : isQuotaError m0 <;> cases hq1 : isQuotaError m1 <;>
          cases hq2 : isQuotaError m2 <;> simp [retryGo, h0, h1, h2, hq0, hq1, hq2]
      | ok v =>
        cases hq0 : isQuotaError m0 <;> cases hq1 : isQuotaError m1 <;>
          simp [retryGo, h0, h1, h2, hq0, hq1]
    | ok v => cases hq0 : isQuotaError m0 <;> simp [retryGo, h0, h1, hq0]
  | ok v => simp [retryGo, h0]

/-- C4: retry policy of the video queue's dispatch helper.  For every
scripted sequence of attempt outcomes: at most 3 attempts happen and all
attempt indices are below 3; when all three attempts fail with
quota-type errors (HTTP 429 or a quota-exceeded message) the backoff
sleeps are exponential starting at 10 s and doubling (10000 ms then
20000 ms) and the final failure is the quota-specific error; a non-quota
failure before the last attempt causes one short fixed 2000 ms delay and
a retry; a quota failure before the last attempt causes the 10 s backoff
and a retry; and a non-quota failure on the last attempt is propagated
unchanged. -/
theorem video_retry_policy (call : Nat → Except String String) :
    (((generateVideoWithRetry call).2.countP RetryEvent.isAttempt) ≤ 3
      ∧ (∀ ev ∈ (generateVideoWithRetry call).2, ∀ i, ev = .attempt i → i < 3))
    ∧ (∀ m0 m1 m2, call 0 = .error m0 → call 1 = .error m1 → call 2 = .error m2 →
        isQuotaError m0 = true → isQuotaError m1 = true → isQuotaError m2 = true →
        generateVideoWithRetry call =
          (.error quotaExhaustedMsg,
            [.attempt 0, .sleep 10000, .attempt 1, .sleep 20000, .attempt 2]))
    ∧ (∀ m v, call 0 = .error m → isQuotaError m = false → call 1 = .ok v →
        generateVideoWithRetry call = (.ok v, [.attempt 0, .sleep 2000, .attempt 1]))
    ∧ (∀ m v, call 0 = .error m → isQuotaError m = true → call 1 = .ok v →
        generateVideoWithRetry call = (.ok v, [.attempt 0, .sleep 10000, .attempt 1]))
    ∧ (∀ m0 m1 m2, call 0 = .error m0 → call 1 = .error m1 → call 2 = .error m2 →
        isQuotaError m2 = false → (generateVideoWithRetry call).1 = .error m2) := by
  refine ⟨⟨?_, ?_⟩, ?_, ?_, ?_, ?_⟩
  · rw [generateVideoWithRetry_eq]
    cases h0 : call 0 with
    | error m0 =>
      cases h1 : call 1 with
      | error m1 =>
        cases h2 : call 2 with
        | error m2 =>
          cases hq0 : isQuotaError m0 <;> cases hq1 : isQuotaError m1 <;>
            simp [List.countP, List.countP.go, RetryEvent.isAttempt, hq0, hq1]
        | ok v =>
          cases hq0 : isQuotaError m0 <;> cases hq1 : isQuotaError m1 <;>
            simp [List.countP, List.countP.go, RetryEvent.isAttempt, hq0, hq1]
      | ok v =>
        cases hq0 : isQuotaError m0 <;>
          simp [List.countP, List.countP.go, RetryEvent.isAttempt, hq0]
    | ok v => simp [List.countP, List.countP.go, RetryEvent.isAttempt]
  · rw [generateVideoWithRetry_eq]
    cases h0 : call 0 with
    | error m0 =>
      cases h1 : call 1 with
      | error m1 =>
        cases h2 : call 2 with
        | error m2 =>
          cases hq0 : isQuotaError m0 <;> cases hq1 : isQuotaError m1 <;>
            (intro ev hev i hi; simp [hq0, hq1] at hev;
              rcases hev with h | h | h | h | h <;> simp [h] at hi ⊢ <;> omega)
        | ok v =>
          cases hq0 : isQuotaError m0 <;> cases hq1 : isQuotaError m1 <;>
            (intro ev hev i hi; simp [hq0, hq1] at hev;
              rcases hev with h | h | h | h | h <;> simp [h] at hi ⊢ <;> omega)
      | ok v =>
        cases hq0 : isQuotaError m0 <;>
          (intro ev hev i hi; simp [hq0] at hev; rcases hev with h | h | h <;>
            simp [h] at hi ⊢ <;> omega)
    | ok v =>
      intro ev hev i hi
      simp at hev
      simp [hev] at hi
      omega
  · intro m0 m1 m2 h0 h1 h2 hq0 hq1 hq2
    rw [generateVideoWithRetry_eq]
    simp [h0, h1, h2, hq0, hq1, hq2]
  · intro m v h0 hq0 h1
    rw [generateVideoWithRetry_eq]
    simp [h0, h1, hq0]
  · intro m v h0 hq0 h1
    rw [generateVideoWithRetry_eq]
    simp [h0, h1, hq0]
  · intro m0 m1 m2 h0 h1 h2 hq2
    rw [generateVideoWithRetry_eq]
    simp [h0, h1, h2, hq2]

/-- Witness for C4: three straight 429 failures end in the
quota-specific error after 10 s and 20 s backoffs. -/
theorem video_retry_policy_witness :
    generateVideoWithRetry (fun _ => .error ("429")) =
      (.error quotaExhaustedMsg,
        [.attempt 0, .sleep 10000, .attempt 1, .sleep 20000, .attempt 2]) :=
  (video_retry_policy (fun _ => .error ("429"))).2.1 ("429") ("429") ("429")
    rfl rfl rfl (by decide) (by decide) (by decide)

/-! ### Chat handler (api/chat.js, lines 738–1022)

The handler slice modelled here starts after a successful oracle
consultation (`claudeMessage` is the oracle reply) and a successful
upload step, and covers the generation decision, prompt extraction,
the image fallback chain, reply cleaning and response assembly.
Adapter outcomes are scripted inputs. -/

/-- Jewelry/action lexicon of the `isJewelryRequest` check
(lines 896–908), in source order. -/
def jewelryLexicon : List String :=
  [("ring"), ("jewelry"), ("diamond"), ("necklace"), ("bracelet"),
   ("earring"), ("pendant"), ("engagement"), ("wedding"), ("generate"),
   ("create"), ("image")]

/-- Video vocabulary of the `isVideoRequest` check (lines 884–891), in
source order. -/
def videoLexicon : List String :=
  [("video"), ("rotating"), ("360"), ("rotate"), ("spin"), ("animation"),
   ("moving")]

/-- `isVideoRequest` (lines 884–894). -/
def isVideoRequest (message claudeMessage : String) : Bool :=
  (videoLexicon.any fun w => strIncludes (strToLower message) w)
  || strIncludes (strToLower claudeMessage) ("video")
  || strIncludes claudeMessage ("GENERATE_VIDEO:")

/-- `isJewelryRequest` (lines 896–912): lexicon match on the raw
message, or an image directive in the oracle reply, or a reference
image, or a refinement request. -/
def isJewelryRequest (message claudeMessage : String)
    (hasReferenceImage isRefinementRequest : Bool) : Bool :=
  (jewelryLexicon.any fun w => strIncludes (strToLower message) w)
  || strIncludes claudeMessage ("GENERATE_IMAGE:")
  || hasReferenceImage
  || isRefinementRequest

/-- JS `str.split(sep)[1]`: the segment between the first and the
second occurrence of the separator (or up to the end if the separator
occurs once). -/
def splitSecond (s sep : String) : String :=
  match splitFirst sep.data s.data with
  | none => ""
  | some pr =>
    match splitFirst sep.data pr.2 with
    | none => String.mk pr.2
    | some pr2 => String.mk pr2.1

/-- Case-insensitive literal match: if `pat` (given lower-case) matches
the front of `s` up to ASCII case, return the rest of `s`. -/
def stripCaseless : List Char → List Char → Option (List Char)
  | [], s => some s
  | _ :: _, [] => none
  | p :: ps, c :: cs => if c.toLower = p then stripCaseless ps cs else none

/-- Alternatives of the regex `generate|create|image|video|of|an?` in
the order the regex engine tries them (`an?` first tries `an`, then
`a`). -/
def promptStripWords : List String :=
  [("generate"), ("create"), ("image"), ("video"), ("of"), ("an"), ("a")]

/-- First alternative that matches at the current position. -/
def tryAlternatives : List String → List Char → Option (List Char)
  | [], _ => none
  | w :: ws, s =>
    match stripCaseless w.data s with
    | some rest => some rest
    | none => tryAlternatives ws s

/-- Global scan of `message.replace(/generate|create|image|video|of|an?/gi, '')`:
at each position delete the first matching alternative and continue
after it, otherwise keep the character.  Fuel is the remaining length
(every step consumes at least one character). -/
def fallbackScan : Nat → List Char → List Char
  | 0, cs => cs
  | fuel + 1, cs =>
    match cs with
    | [] => []
    | c :: rest =>
      match tryAlternatives promptStripWords (c :: rest) with
      | some rest2 => fallbackScan fuel rest2
      | none => c :: fallbackScan fuel rest

/-- The regex replace of line 922. -/
def replaceGenWords (s : String) : String :=
  String.mk (fallbackScan s.data.length s.data)

/-- Prompt extraction (lines 915–923). -/
def extractPrompt (claudeMessage message : String) : String :=
  if strIncludes claudeMessage ("GENERATE_IMAGE:") then
    strTrim (splitSecond claudeMessage ("GENERATE_IMAGE:"))
  else if strIncludes claudeMessage ("GENERATE_VIDEO:") then
    strTrim (splitSecond claudeMessage ("GENERATE_VIDEO:"))
  else
    strTrim (replaceGenWords message) ++ ", professional jewelry photography style"

/-- Drop the rest of the current line: in the regex
`GENERATE_IMAGE:.*$` (multiline) the dot does not match a newline and
`$` stops at it. -/
def dropLineRest (cs : List Char) : List Char :=
  cs.dropWhile (fun c => c != '\n')

/-- Remove the first match of `GENERATE_IMAGE:.*$`: the sentinel and
everything after it up to the end of that line (`String.replace` with
no `g` flag replaces only the first match). -/
def removeImageSentinelLine : List Char → List Char
  | [] => []
  | c :: cs =>
    if ("GENERATE_IMAGE:").data.isPrefixOf (c :: cs) then
      dropLineRest (List.drop 15 (c :: cs))
    else c :: removeImageSentinelLine cs

/-- The reply cleaning of line 981:
`claudeMessage.replace(/GENERATE_IMAGE:.*$/m, '').trim()`. -/
def cleanMessage (claudeMessage : String) : String :=
  strTrim (String.mk (removeImageSentinelLine claudeMessage.data))

/-- Normalized result of a successful adapter call (`dataUrl`,
`publicUrl`, `filename`). -/
structure GenResult where
  dataUrl : String
  publicUrl : String
  filename : String
deriving Repr, DecidableEq

/-- One adapter invocation, with the prompt it received. -/
structure AdapterCall where
  adapter : String
  prompt : String
deriving Repr, DecidableEq

/-- The inline image fallback chain of the handler (lines 944–977):
`generateImageWithVertex`, and on any error one attempt of
`fallbackToStableDiffusion`; a failure of both is only logged and
leaves `imageResult` null. -/
def imageChain (vertexOutcome sdOutcome : Except String GenResult)
    (prompt : String) : Option GenResult × List AdapterCall :=
  match vertexOutcome with
  | .ok r => (some r, [{ adapter := "generateImageWithVertex", prompt := prompt }])
  | .error _ =>
    match sdOutcome with
    | .ok r =>
        (some r, [{ adapter := "generateImageWithVertex", prompt := prompt },
                  { adapter := "fallbackToStableDiffusion", prompt := prompt }])
    | .error _ =>
        (none, [{ adapter := "generateImageWithVertex", prompt := prompt },
                { adapter := "fallbackToStableDiffusion", prompt := prompt }])

/-- Scripted inputs of one handler run (after a successful oracle
consultation). -/
structure HandlerInput where
  message : String
  claudeMessage : String
  hasReferenceImage : Bool
  isRefinementRequest : Bool
  vertexOutcome : Except String GenResult
  sdOutcome : Except String GenResult
  videoOutcome : Except String GenResult

/-- The JSON body of the 200 response (lines 983–1005), restricted to
the fields the claims mention. -/
structure ChatResponse where
  status : Nat
  message : String
  imageUrl : Option String
  videoUrl : Option String
  publicUrl : Option String
  contentType : String
deriving Repr, DecidableEq

/-- Generation step and response assembly of the handler
(lines 880–1005), returning the response and the adapter-call trace. -/
def handlerStep2 (inp : HandlerInput) : ChatResponse × List AdapterCall :=
  let isVideo := isVideoRequest inp.message inp.claudeMessage
  let isJewelry := isJewelryRequest inp.message inp.claudeMessage
    inp.hasReferenceImage inp.isRefinementRequest
  let gen : Option GenResult × Option GenResult × List AdapterCall :=
    if isJewelry then
      let prompt := extractPrompt inp.claudeMessage inp.message
      if isVideo then
        match inp.videoOutcome with
        | .ok r => (none, some r, [{ adapter := "generateVideoWithVertex", prompt := prompt }])
        | .error _ => (none, none, [{ adapter := "generateVideoWithVertex", prompt := prompt }])
      else
        let c := imageChain inp.vertexOutcome inp.sdOutcome prompt
        (c.1, none, c.2)
    else (none, none, [])
  let imageResult := gen.1
  let videoResult := gen.2.1
  ({ status := 200,
     message := cleanMessage inp.claudeMessage,
     imageUrl := imageResult.map GenResult.dataUrl,
     videoUrl := videoResult.map GenResult.dataUrl,
     publicUrl :=
       match imageResult with
       | some r => some r.publicUrl
       | none => videoResult.map GenResult.publicUrl,
     contentType := if videoResult.isSome then "video" else "image" },
   gen.2.2)

example : cleanMessage ("A lovely ring!\nGENERATE_IMAGE: gold ring") = "A lovely ring!" := by
  decide

example : extractPrompt ("Hi!\nGENERATE_IMAGE: gold ring") ("x") = "gold ring" := by
  decide

/-! ### part_002 revision: DALL-E 3 → DALL-E 2 chain (lines 56–93) -/

/-- A JS error as inspected by part_002's fallback guard. -/
structure JsError where
  code : String
  message : String
deriving Repr, DecidableEq

/-- Line 75 of part_002: `imageError.code === 'model_not_found' ||
imageError.message.includes('dall-e-3')`. -/
def isDalle3Unavailable (e : JsError) : Bool :=
  e.code == "model_not_found" || strIncludes e.message ("dall-e-3")

/-- The DALL-E 3 → DALL-E 2 chain of part_002's handler (lines 56–93).
The DALL-E 2 fallback runs only when the DALL-E 3 failure signals that
the model is unavailable; any other failure leaves `imageUrl` null with
no second call. -/
def dalleChain (d3Outcome d2Outcome : Except JsError String) :
    Option String × List String :=
  match d3Outcome with
  | .ok url => (some url, [("dall-e-3")])
  | .error e =>
    if isDalle3Unavailable e then
      match d2Outcome with
      | .ok url => (some url, [("dall-e-3"), ("dall-e-2")])
      | .error _ => (none, [("dall-e-3"), ("dall-e-2")])
    else (none, [("dall-e-3")])

/-- Concrete run in which both image adapters of the main handler
fail. -/
def c2AllFailInput : HandlerInput :=
  { message := "a ring", claudeMessage := "Sure!",
    hasReferenceImage := false, isRefinementRequest := false,
    vertexOutcome := .error ("vertex down"),
    sdOutcome := .error ("replicate down"),
    videoOutcome := .error ("unused") }

/-- C2 counterexample: in the part_002 revision, a DALL-E 3 failure that
is not a model-unavailable signal (here a rate-limit error) does not
advance the chain — DALL-E 2 is never called even though it would
succeed, and no artifact is produced.  This falsifies "whenever any
adapter fails with a provider error the chain advances to the next
adapter".  Moreover, when every adapter fails the handler does not
surface an error carrying the last failure: the failure is only logged
and the response is a plain 200 with null `imageUrl`. -/
theorem rate_limit_error_does_not_advance :
    (dalleChain (.error { code := "rate_limited", message := "Rate limit exceeded" })
        (.ok ("https://images.example/ok.png"))
      = (none, [("dall-e-3")]))
    ∧ (handlerStep2 c2AllFailInput).1
      = { status := 200, message := "Sure!", imageUrl := none,
          videoUrl := none, publicUrl := none, contentType := "image" } := by
  decide

/-- C2 (amended): adapters are invoked strictly in configured order and
at most once each, the chain short-circuits on the first success, and on
exhaustion no artifact is produced (the last failure is only logged, the
handler still answers 200 — see the C3 theorem).  In the main chat.js
chain every Vertex failure advances to Stable Diffusion; in the part_002
revision the second adapter runs only when the first failure signals
that dall-e-3 is unavailable. -/
theorem fallback_chain_behaviour
    (vertexOutcome sdOutcome : Except String GenResult) (prompt : String)
    (d3Outcome d2Outcome : Except JsError String) :
    (∀ r, vertexOutcome = .ok r →
      imageChain vertexOutcome sdOutcome prompt =
        (some r, [{ adapter := "generateImageWithVertex", prompt := prompt }]))
    ∧ (∀ m r, vertexOutcome = .error m → sdOutcome = .ok r →
      imageChain vertexOutcome sdOutcome prompt =
        (some r, [{ adapter := "generateImageWithVertex", prompt := prompt },
                  { adapter := "fallbackToStableDiffusion", prompt := prompt }]))
    ∧ (∀ m m', vertexOutcome = .error m → sdOutcome = .error m' →
      imageChain vertexOutcome sdOutcome prompt =
        (none, [{ adapter := "generateImageWithVertex", prompt := prompt },
                { adapter := "fallbackToStableDiffusion", prompt := prompt }]))
    ∧ (∀ url, d3Outcome = .ok url →
      dalleChain d3Outcome d2Outcome = (some url, [("dall-e-3")]))
    ∧ (∀ e, d3Outcome = .error e → isDalle3Unavailable e = false →
      dalleChain d3Outcome d2Outcome = (none, [("dall-e-3")]))
    ∧ (∀ e url, d3Outcome = .error e → isDalle3Unavailable e = true →
      d2Outcome = .ok url →
      dalleChain d3Outcome d2Outcome = (some url, [("dall-e-3"), ("dall-e-2")]))
    ∧ (∀ e e', d3Outcome = .error e → isDalle3Unavailable e = true →
      d2Outcome = .error e' →
      dalleChain d3Outcome d2Outcome = (none, [("dall-e-3"), ("dall-e-2")])) := by
  refine ⟨?_, ?_, ?_, ?_, ?_, ?_, ?_⟩
  · intro r h; simp [imageChain, h]
  · intro m r h h'; simp [imageChain, h, h']
  · intro m m' h h'; simp [imageChain, h, h']
  · intro url h; simp [dalleChain, h]
  · intro e h hq; simp [dalleChain, h, hq]
  · intro e url h hq h'; simp [dalleChain, h, hq, h']
  · intro e e' h hq h'; simp [dalleChain, h, hq, h']

/-- Witness for C2 (amended) at concrete outcomes: Vertex and DALL-E 3
fail, the chat.js chain advances and succeeds with Stable Diffusion,
the part_002 chain stops. -/
theorem fallback_chain_behaviour_witness :
    imageChain (.error ("boom"))
        (.ok { dataUrl := "d", publicUrl := "p", filename := "f" }) ("ring")
      = (some { dataUrl := "d", publicUrl := "p", filename := "f" },
        [{ adapter := "generateImageWithVertex", prompt := "ring" },
         { adapter := "fallbackToStableDiffusion", prompt := "ring" }]) :=
  ((fallback_chain_behaviour (.error ("boom"))
      (.ok { dataUrl := "d", publicUrl := "p", filename := "f" }) ("ring")
      (.error { code := "x", message := "y" }) (.error { code := "x", message := "y" })).2.1)
    ("boom") { dataUrl := "d", publicUrl := "p", filename := "f" } rfl rfl

/-! ### Claim C3: generation failure is non-fatal -/

/-- Concrete run in which the oracle reply is nothing but the directive
line and both image adapters fail. -/
def c3Input : HandlerInput :=
  { message := "hello",
    claudeMessage := "GENERATE_IMAGE: gold ring",
    hasReferenceImage := false, isRefinementRequest := false,
    vertexOutcome := .error ("Vertex AI error"),
    sdOutcome := .error ("Replicate error"),
    videoOutcome := .error ("unused") }

/-- C3 counterexample: with the oracle reply consisting solely of the
directive line and every image adapter failing, the response still has
status 200 and null `imageUrl`, but its `message` is the empty string —
the claimed "non-empty cleaned conversational message" is false. -/
theorem all_adapters_fail_message_empty :
    (handlerStep2 c3Input).1.status = 200
    ∧ (handlerStep2 c3Input).1.imageUrl = none
    ∧ (handlerStep2 c3Input).1.message = "" := by decide

/-- C3 (amended): whenever both image adapters fail, the handler still
answers 200 with `imageUrl` null and the cleaned oracle reply as the
message (which is empty exactly when the reply had no text outside the
directive line). -/
theorem all_adapters_fail_still_200 (inp : HandlerInput)
    (hv : inp.vertexOutcome.isOk = false) (hs : inp.sdOutcome.isOk = false) :
    (handlerStep2 inp).1.status = 200
    ∧ (handlerStep2 inp).1.imageUrl = none
    ∧ (handlerStep2 inp).1.message = cleanMessage inp.claudeMessage := by
  cases hvo : inp.vertexOutcome with
  | ok r => rw [hvo] at hv; simp [Except.isOk, Except.toBool] at hv
  | error m =>
    cases hso : inp.sdOutcome with
    | ok r => rw [hso] at hs; simp [Except.isOk, Except.toBool] at hs
    | error m' =>
      cases hjo : isJewelryRequest inp.message inp.claudeMessage
          inp.hasReferenceImage inp.isRefinementRequest with
      | false => simp [handlerStep2, hjo]
      | true =>
        cases hvi : isVideoRequest inp.message inp.claudeMessage with
        | false => simp [handlerStep2, hjo, hvi, imageChain, hvo, hso]
        | true => cases hvid : inp.videoOutcome <;> simp [handlerStep2, hjo, hvi, hvid]

/-- Witness for C3 (amended) at a concrete input with conversational
text around the directive. -/
theorem all_adapters_fail_still_200_witness :
    (handlerStep2 { c3Input with
        claudeMessage := "A lovely ring!\nGENERATE_IMAGE: gold ring" }).1.status = 200
    ∧ (handlerStep2 { c3Input with
        claudeMessage := "A lovely ring!\nGENERATE_IMAGE: gold ring" }).1.imageUrl = none
    ∧ (handlerStep2 { c3Input with
        claudeMessage := "A lovely ring!\nGENERATE_IMAGE: gold ring" }).1.message
      = cleanMessage ("A lovely ring!\nGENERATE_IMAGE: gold ring") :=
  all_adapters_fail_still_200
    { c3Input with claudeMessage := "A lovely ring!\nGENERATE_IMAGE: gold ring" }
    rfl rfl

/-! ### Claim C6: sentinel stripping -/

/-- Concrete video run: the oracle reply carries a video directive. -/
def c6Input : HandlerInput :=
  { message := "a ring video",
    claudeMessage := "Nice!\nGENERATE_VIDEO: spinning ring",
    hasReferenceImage := false, isRefinementRequest := false,
    vertexOutcome := .error ("unused"),
    sdOutcome := .error ("unused"),
    videoOutcome := .ok { dataUrl := "data:video/mp4;base64,AAA",
                          publicUrl := "https://b/v.mp4",
                          filename := "jewelry-video-veo-3.0-fast-1.mp4" } }

/-- C6 (code bug, failing input): the reply cleaning of line 981 strips
only `GENERATE_IMAGE:` lines, so for a reply carrying a video directive
the 200 response's message still contains the `GENERATE_VIDEO:` sentinel
and its trailing text, contradicting the claim and §4.1 of the spec. -/
theorem video_sentinel_not_stripped :
    (handlerStep2 c6Input).1.status = 200
    ∧ strIncludes (handlerStep2 c6Input).1.message ("GENERATE_VIDEO:") = true
    ∧ strIncludes (handlerStep2 c6Input).1.message ("spinning ring") = true
    ∧ (handlerStep2 c6Input).1.videoUrl = some ("data:video/mp4;base64,AAA") := by
  decide

/-! ### Claim C7: no generation without a signal -/

/-- part_003 revision, lines 51–52: the debugging flag left in the
code, forcing image generation on every request. -/
def part003ForceImageGeneration : Bool := true

/-- part_003's generation guard (line 54):
`claudeMessage.includes('GENERATE_IMAGE:') || forceImageGeneration`. -/
def part003AttemptsGeneration (claudeMessage : String) : Bool :=
  strIncludes claudeMessage ("GENERATE_IMAGE:") || part003ForceImageGeneration

/-- C7 (code bug): in the main chat.js handler a message with no
jewelry/action lexicon word, no reference image, no refinement flag and
an oracle reply without generation directives triggers no adapter call;
but the part_003 revision attempts generation even then, because its
debugging flag `forceImageGeneration = true` bypasses the guard. -/
theorem no_signal_no_generation (inp : HandlerInput)
    (hlex : ∀ w ∈ jewelryLexicon, strIncludes (strToLower inp.message) w = false)
    (href : inp.hasReferenceImage = false)
    (hrefine : inp.isRefinementRequest = false)
    (himg : strIncludes inp.claudeMessage ("GENERATE_IMAGE:") = false)
    (_hvid : strIncludes inp.claudeMessage ("GENERATE_VIDEO:") = false) :
    (handlerStep2 inp).2 = []
    ∧ part003AttemptsGeneration inp.claudeMessage = true := by
  have hj : isJewelryRequest inp.message inp.claudeMessage
      inp.hasReferenceImage inp.isRefinementRequest = false := by
    simp [isJewelryRequest, href, hrefine, himg, List.any_eq_true]
    intro w hw
    exact hlex w hw
  constructor
  · simp [handlerStep2, hj]
  · simp [part003AttemptsGeneration, part003ForceImageGeneration]

/-- Concrete signal-free input for the C7 witness. -/
def c7Input : HandlerInput :=
  { message := "hi", claudeMessage := "Hello!",
    hasReferenceImage := false, isRefinementRequest := false,
    vertexOutcome := .error ("unused"), sdOutcome := .error ("unused"),
    videoOutcome := .error ("unused") }

/-- Witness for C7 at a concrete signal-free input. -/
theorem no_signal_no_generation_witness :
    (handlerStep2 c7Input).2 = []
    ∧ part003AttemptsGeneration ("Hello!") = true :=
  no_signal_no_generation c7Input
    (by decide) rfl rfl (by decide) (by decide)

/-! ### Artifact filenames (claim C8)

`generateImageWithVertex` (lines 662–665) and `processVideoResponse`
(line 506) build filenames from a kind prefix and `Date.now()` alone.
The JS template literal stringifies the millisecond timestamp in
decimal, which is `Nat.repr`. -/

/-- Image filename (lines 662–664). -/
def imageFilename (isRefinement : Bool) (ts : Nat) : String :=
  if isRefinement then "jewelry-refined-" ++ Nat.repr ts ++ ".png"
  else "jewelry-catalog-" ++ Nat.repr ts ++ ".png"

/-- Video filename (line 506):
`jewelry-video-${modelUsed}-${Date.now()}.mp4`. -/
def videoFilename (modelUsed : String) (ts : Nat) : String :=
  "jewelry-video-" ++ modelUsed ++ "-" ++ Nat.repr ts ++ ".mp4"

/-- The artifact record built by `generateImageWithVertex` on success
(lines 657–671): inline data URL, public URL and filename. -/
def mkVertexImageResult (bytesBase64 : String) (isRefinement : Bool)
    (ts : Nat) (publicUrl : String) : GenResult :=
  { dataUrl := "data:image/png;base64," ++ bytesBase64,
    publicUrl := publicUrl,
    filename := imageFilename isRefinement ts }

/-- C8 counterexample: two distinct artifacts persisted in the same
millisecond receive the same filename — the filename has no random or
sequence suffix, so the claimed distinctness of filenames for distinct
artifacts is false. -/
theorem same_millisecond_filename_collision :
    mkVertexImageResult ("AAAA") false 1000 ("https://b/a.png")
      ≠ mkVertexImageResult ("BBBB") false 1000 ("https://b/b.png")
    ∧ (mkVertexImageResult ("AAAA") false 1000 ("https://b/a.png")).filename
      = (mkVertexImageResult ("BBBB") false 1000 ("https://b/b.png")).filename := by
  decide

/-- Decimal value of a digit character. -/
def digitVal (c : Char) : Nat := c.toNat - 48

/-- Value of a most-significant-first digit-character list. -/
def digitsVal : List Char → Nat
  | [] => 0
  | c :: cs => digitVal c * 10 ^ cs.length + digitsVal cs

theorem digitVal_digitChar (r : Nat) (h : r < 10) :
    digitVal (Nat.digitChar r) = r := by
  interval_cases r <;> decide

theorem digitsVal_toDigitsCore : ∀ (fuel n : Nat) (ds : List Char),
    n < 10 ^ fuel →
    digitsVal (Nat.toDigitsCore 10 fuel n ds)
      = n * 10 ^ ds.length + digitsVal ds := by
  intro fuel
  induction fuel with
  | zero =>
    intro n ds h
    simp at h
    simp [h, Nat.toDigitsCore]
  | succ f ih =>
    intro n ds h
    simp only [Nat.toDigitsCore]
    split
    · rename_i hdiv
      have hn : n < 10 := by omega
      have hm : n % 10 = n := Nat.mod_eq_of_lt hn
      simp [digitsVal, hm, digitVal_digitChar n hn]
    · rename_i hdiv
      have hlt : n / 10 < 10 ^ f := by
        have h10 : (0:Nat) < 10 := by norm_num
        rw [Nat.div_lt_iff_lt_mul h10]
        calc n < 10 ^ (f + 1) := h
          _ = 10 ^ f * 10 := by ring
      rw [ih (n / 10) (Nat.digitChar (n % 10) :: ds) hlt]
      simp only [digitsVal, List.length_cons,
        digitVal_digitChar (n % 10) (Nat.mod_lt _ (by norm_num))]
      have hdm := Nat.div_add_mod n 10
      have e : n / 10 * 10 ^ (ds.length + 1) + n % 10 * 10 ^ ds.length
          = n * 10 ^ ds.length := by
        calc n / 10 * 10 ^ (ds.length + 1) + n % 10 * 10 ^ ds.length
            = (10 * (n / 10) + n % 10) * 10 ^ ds.length := by ring
          _ = n * 10 ^ ds.length := by rw [hdm]
      omega

theorem n_lt_ten_pow (n : Nat) : n < 10 ^ (n + 1) := by
  calc n < 10 ^ n := Nat.lt_pow_self (by norm_num) n
    _ ≤ 10 ^ (n + 1) := Nat.pow_le_pow_right (by norm_num) (by omega)

theorem digitsVal_toDigits (n : Nat) :
    digitsVal (Nat.toDigits 10 n) = n := by
  have h := digitsVal_toDigitsCore (n + 1) n [] (n_lt_ten_pow n)
  simpa [Nat.toDigits, digitsVal] using h

theorem natRepr_inj (m n : Nat) (h : Nat.repr m = Nat.repr n) : m = n := by
  simp only [Nat.repr] at h
  have hl : Nat.toDigits 10 m = Nat.toDigits 10 n := List.asString_inj.mp h
  have hv := congrArg digitsVal hl
  rwa [digitsVal_toDigits, digitsVal_toDigits] at hv

/-- C8 (amended): filenames embed the kind prefix and the millisecond
timestamp (plus the model variant for videos) but no random or sequence
suffix.  Image filenames are injective in (kind, timestamp), video
filenames of a fixed model variant are injective in the timestamp, and
image and video filenames never coincide; two artifacts of the same
kind persisted in the same millisecond collide (see the
counterexample). -/
theorem artifact_filename_uniqueness :
    (∀ (r r' : Bool) (ts ts' : Nat),
        imageFilename r ts = imageFilename r' ts' → r = r' ∧ ts = ts')
    ∧ (∀ (m : String) (ts ts' : Nat),
        videoFilename m ts = videoFilename m ts' → ts = ts')
    ∧ (∀ (r : Bool) (ts : Nat) (m : String) (ts' : Nat),
        imageFilename r ts ≠ videoFilename m ts') := by
  refine ⟨?_, ?_, ?_⟩
  · intro r r' ts ts' h
    have hd := congrArg String.data h
    cases r <;> cases r' <;>
      simp only [imageFilename, Bool.false_eq_true, if_false, if_true,
        String.data_append, List.append_assoc] at hd
    · refine ⟨rfl, ?_⟩
      have h1 := List.append_cancel_left hd
      have h2 := List.append_cancel_right h1
      exact natRepr_inj ts ts' (String.ext h2)
    · exfalso
      have h14 := congrArg (List.take 14) hd
      rw [List.take_append_of_le_length (by decide),
        List.take_append_of_le_length (by decide)] at h14
      exact absurd h14 (by decide)
    · exfalso
      have h14 := congrArg (List.take 14) hd
      rw [List.take_append_of_le_length (by decide),
        List.take_append_of_le_length (by decide)] at h14
      exact absurd h14 (by decide)
    · refine ⟨rfl, ?_⟩
      have h1 := List.append_cancel_left hd
      have h2 := List.append_cancel_right h1
      exact natRepr_inj ts ts' (String.ext h2)
  · intro m ts ts' h
    have hd := congrArg String.data h
    simp only [videoFilename, String.data_append, List.append_assoc] at hd
    have h1 := List.append_cancel_left hd
    have h2 := List.append_cancel_left h1
    have h3 := List.append_cancel_left h2
    have h4 := List.append_cancel_right h3
    exact natRepr_inj ts ts' (String.ext h4)
  · intro r ts m ts' h
    have hd := congrArg String.data h
    cases r <;>
      simp only [imageFilename, videoFilename, Bool.false_eq_true, if_false,
        if_true, String.data_append, List.append_assoc] at hd <;>
    · have h14 := congrArg (List.take 14) hd
      rw [List.take_append_of_le_length (by decide),
        List.take_append_of_le_length (by decide)] at h14
      exact absurd h14 (by decide)

/-- Witness for C8 (amended) at concrete inputs: the image-filename
injectivity applied to an actual equality, and an image/video
distinctness instance. -/
theorem artifact_filename_uniqueness_witness :
    (false = false ∧ 7 = 7)
    ∧ imageFilename false 5 ≠ videoFilename ("veo-3.0") 5 :=
  ⟨artifact_filename_uniqueness.1 false false 7 7 rfl,
   artifact_filename_uniqueness.2.2 false 5 ("veo-3.0") 5⟩

/-! ### CRM counter sync (`calculateCumulativeData`, claim C9)

Two revisions of `api/create-hubspot-contact.js` are in the repository:
part_006 ("Fixed to prevent double counting", lines 212–253) and the
earlier part_005 (lines 503–514).  Stored counters arrive as
`parseInt(x) || 0` and session fields as `x || 0`; they are modelled as
the parsed naturals. -/

/-- Stored CRM counters of a contact. -/
structure CrmCounters where
  sessionsCount : Nat
  imagesGenerated : Nat
  refinementsMade : Nat
  downloadsCount : Nat
  sharesCount : Nat
deriving Repr, DecidableEq

/-- Client-supplied session totals. -/
structure SessionData where
  imagesGenerated : Nat
  refinementsMade : Nat
  downloadsCount : Nat
  sharesCount : Nat
deriving Repr, DecidableEq

/-- part_006 lines 212–253: start from the stored values; increment
exactly the counter matching the trigger by one; bulk-add the session
totals (and count a session) only on `email_captured`; unknown triggers
change nothing. -/
def calculateCumulativeData (existing : CrmCounters) (sessionData : SessionData)
    (conversionTrigger : String) : CrmCounters :=
  if conversionTrigger == "download" then
    { existing with downloadsCount := existing.downloadsCount + 1 }
  else if conversionTrigger == "share" then
    { existing with sharesCount := existing.sharesCount + 1 }
  else if conversionTrigger == "image_generated" then
    { existing with imagesGenerated := existing.imagesGenerated + 1 }
  else if conversionTrigger == "refinement_made" then
    { existing with refinementsMade := existing.refinementsMade + 1 }
  else if conversionTrigger == "email_captured" then
    { sessionsCount := existing.sessionsCount + 1,
      imagesGenerated := existing.imagesGenerated + sessionData.imagesGenerated,
      refinementsMade := existing.refinementsMade + sessionData.refinementsMade,
      downloadsCount := existing.downloadsCount + sessionData.downloadsCount,
      sharesCount := existing.sharesCount + sessionData.sharesCount }
  else if conversionTrigger == "session_end" then
    { existing with sessionsCount := existing.sessionsCount + 1 }
  else existing

/-- part_005 lines 503–514: the earlier revision adds the client
session totals and one session on every call; the trigger is ignored. -/
def calculateCumulativeDataLegacy (existing : CrmCounters)
    (sessionData : SessionData) (_conversionTrigger : String) : CrmCounters :=
  { sessionsCount := existing.sessionsCount + 1,
    imagesGenerated := existing.imagesGenerated + sessionData.imagesGenerated,
    refinementsMade := existing.refinementsMade + sessionData.refinementsMade,
    downloadsCount := existing.downloadsCount + sessionData.downloadsCount,
    sharesCount := existing.sharesCount + sessionData.sharesCount }

/-- C9 counterexample: in the part_005 revision a `download` sync call
bulk-adds the client session totals — images jump by 5 and downloads by
2 instead of by exactly one for the matching trigger, so repeated calls
with the same session data double count. -/
theorem legacy_download_bulk_adds :
    (calculateCumulativeDataLegacy
        { sessionsCount := 0, imagesGenerated := 0, refinementsMade := 0,
          downloadsCount := 0, sharesCount := 0 }
        { imagesGenerated := 5, refinementsMade := 0, downloadsCount := 2,
          sharesCount := 0 }
        ("download")).imagesGenerated = 5
    ∧ (calculateCumulativeDataLegacy
        { sessionsCount := 0, imagesGenerated := 0, refinementsMade := 0,
          downloadsCount := 0, sharesCount := 0 }
        { imagesGenerated := 5, refinementsMade := 0, downloadsCount := 2,
          sharesCount := 0 }
        ("download")).downloadsCount = 2 := by decide

/-- C9 (amended): in the fixed revision (part_006) every sync call
increments exactly the counter matching the received trigger by one,
ignores the client session totals on all triggers except the
first-contact `email_captured` (so repeated calls with the same session
data never double count), bulk-adds the session totals exactly on
`email_captured`, and leaves all counters unchanged on unknown
triggers.  The earlier part_005 revision instead bulk-adds the session
totals on every call (see the counterexample). -/
theorem crm_counters_per_trigger (existing : CrmCounters)
    (sd sd' : SessionData) (trigger : String) :
    (calculateCumulativeData existing sd ("download")
      = { existing with downloadsCount := existing.downloadsCount + 1 })
    ∧ (calculateCumulativeData existing sd ("share")
      = { existing with sharesCount := existing.sharesCount + 1 })
    ∧ (calculateCumulativeData existing sd ("image_generated")
      = { existing with imagesGenerated := existing.imagesGenerated + 1 })
    ∧ (calculateCumulativeData existing sd ("refinement_made")
      = { existing with refinementsMade := existing.refinementsMade + 1 })
    ∧ (calculateCumulativeData existing sd ("session_end")
      = { existing with sessionsCount := existing.sessionsCount + 1 })
    ∧ (calculateCumulativeData existing sd ("email_captured")
      = { sessionsCount := existing.sessionsCount + 1,
          imagesGenerated := existing.imagesGenerated + sd.imagesGenerated,
          refinementsMade := existing.refinementsMade + sd.refinementsMade,
          downloadsCount := existing.downloadsCount + sd.downloadsCount,
          sharesCount := existing.sharesCount + sd.sharesCount })
    ∧ (trigger ≠ "email_captured" →
        calculateCumulativeData existing sd trigger
          = calculateCumulativeData existing sd' trigger)
    ∧ (trigger ∉ [("download"), ("share"), ("image_generated"),
          ("refinement_made"), ("email_captured"), ("session_end")] →
        calculateCumulativeData existing sd trigger = existing) := by
  refine ⟨by rfl, by rfl, by rfl, by rfl, by rfl, by rfl, ?_, ?_⟩
  · intro hne
    simp only [calculateCumulativeData]
    split_ifs <;> simp_all
  · intro hmem
    simp only [List.mem_cons, List.not_mem_nil, or_false, not_or] at hmem
    obtain ⟨h1, h2, h3, h4, h5, h6⟩ := hmem
    simp only [calculateCumulativeData]
    split_ifs <;> simp_all

/-- Witness for C9 (amended) at a concrete non-first-contact trigger
and two different session payloads. -/
theorem crm_counters_per_trigger_witness :
    calculateCumulativeData
        { sessionsCount := 1, imagesGenerated := 2, refinementsMade := 3,
          downloadsCount := 4, sharesCount := 5 }
        { imagesGenerated := 9, refinementsMade := 9, downloadsCount := 9,
          sharesCount := 9 }
        ("download")
      = calculateCumulativeData
        { sessionsCount := 1, imagesGenerated := 2, refinementsMade := 3,
          downloadsCount := 4, sharesCount := 5 }
        { imagesGenerated := 0, refinementsMade := 0, downloadsCount := 0,
          sharesCount := 0 }
        ("download") :=
  (crm_counters_per_trigger
    { sessionsCount := 1, imagesGenerated := 2, refinementsMade := 3,
      downloadsCount := 4, sharesCount := 5 }
    { imagesGenerated := 9, refinementsMade := 9, downloadsCount := 9,
      sharesCount := 9 }
    { imagesGenerated := 0, refinementsMade := 0, downloadsCount := 0,
      sharesCount := 0 }
    ("download")).2.2.2.2.2.2.1 (by decide)

end JewelryGen
